import Mathlib

/-!
Verification development for the LearnSnap repository.

The definitions below are shallow embeddings of the TypeScript source:
`shared/schema.ts` (data model), `server/ai-service.ts` (content pipeline
and scoring), `server/storage.ts` (chapter persistence), and the route
handlers of `server/routes.ts`.  External AI capabilities are modelled by
their observable outcomes (success with a parsed payload, or an error that
covers thrown exceptions and timeouts), which is exactly the granularity at
which the source code branches on them.
-/

namespace LearnSnap

/-! ## Data model (shared/schema.ts) -/

/-- The correct-answer designator of a question: `z.enum(["A","B","C","D"])`. -/
inductive Letter
  | A
  | B
  | C
  | D
deriving DecidableEq

/-- The string a `Letter` denotes at runtime (the zod enum is a string enum). -/
def Letter.toStr : Letter → String
  | .A => "A"
  | .B => "B"
  | .C => "C"
  | .D => "D"

/-- `z.enum(["easy","medium","hard"])`. -/
inductive Difficulty
  | easy
  | medium
  | hard
deriving DecidableEq

/-- `questionSchema` of shared/schema.ts. -/
structure Question where
  question : String
  options : List String
  correct : Letter
  difficulty : Difficulty
deriving DecidableEq

/-- `chapterContentSchema` of shared/schema.ts. -/
structure ChapterContent where
  subject : String
  grade : Nat
  topic : String
  paragraphs : List String
  practice : List Question
  test : List Question
deriving DecidableEq

/-- The ownership-relevant fields of a `children` row. -/
structure Child where
  id : String
  name : String
  parentId : String
deriving DecidableEq

/-- The ownership-relevant fields of a `chapters` row. -/
structure Chapter where
  id : String
  childId : String
  parentId : String
deriving DecidableEq

/-- The ownership-relevant fields of a `chapterResults` row. -/
structure ResultRow where
  id : String
  chapterId : String
  childId : String
deriving DecidableEq

/-! ## AI pipeline (server/ai-service.ts)

Each external capability call is modelled by its outcome as observed by the
surrounding `try`/`catch`: either the `catch` branch fires (`error`, which
covers API errors, timeouts, absent text content, no JSON match, and
`JSON.parse` throwing -- all of these reach the same `catch`), or a parsed
value is obtained. -/

/-- One character the JavaScript regex dot matches: anything but a line
terminator (LF, CR, U+2028, U+2029). -/
def regexDot (c : Char) : Bool :=
  !(c = Char.ofNat 10 || c = Char.ofNat 13
    || c.toNat = 0x2028 || c.toNat = 0x2029)

/-- `extractBase64` of server/ai-service.ts: matches a data URL against the
regex anchored `data:`, then one or more non-semicolon characters (the
mime type, which therefore runs to the first semicolon), then the literal
`;base64,`, then one or more dot characters to the end of the input (so
the payload is nonempty and free of line terminators).  The source throws
when the regex does not match; here that is the `none` outcome. -/
def extractBase64 (dataUrl : String) : Option (String × String) :=
  let cs := dataUrl.data
  if "data:".data.isPrefixOf cs then
    let rest := cs.drop 5
    let mimeType := rest.takeWhile (fun c => c ≠ Char.ofNat 59)
    let tail := rest.dropWhile (fun c => c ≠ Char.ofNat 59)
    if mimeType = [] then none
    else if ";base64,".data.isPrefixOf tail then
      let data := tail.drop 8
      if data = [] then none
      else if data.all regexDot then some (⟨mimeType⟩, ⟨data⟩)
      else none
    else none
  else none

/-- The `photos.map(extractBase64)` step at the top of
`generateWithGemini` (server/ai-service.ts:103-111): the first photo that
is not a well-formed data URL makes the whole map throw, before the Gemini
request is ever issued. -/
def extractAllPhotos (photos : List String) : Option (List (String × String)) :=
  photos.mapM extractBase64

/-- Observable outcome of stage 1 (`generateWithGemini`):
`extractError` when `extractBase64` threw while mapping the photos, before
any external call was issued; `error` when the Gemini request was issued
and the `try` block then threw (API error, timeout, or no parseable JSON
in the response); `ok` when a `ChapterContent` was parsed. -/
inductive GenOutcome
  | extractError
  | error
  | ok (content : ChapterContent)
deriving DecidableEq

/-- Outcome of the Gemini request itself, once issued. -/
inductive GenApiOutcome
  | error
  | ok (content : ChapterContent)
deriving DecidableEq

/-- `generateWithGemini` of server/ai-service.ts as a function of the
photos and of the issued request's outcome: the photos are mapped through
`extractBase64` before the `try` block, so a malformed data URL aborts the
stage with no external call; only afterwards does the request outcome
decide between a generation failure and parsed content. -/
def generateWithGemini (photos : List String) (api : GenApiOutcome) : GenOutcome :=
  match extractAllPhotos photos with
  | none => .extractError
  | some _ =>
    match api with
    | .error => .error
    | .ok content => .ok content

/-- Outcome of the stage-2 GPT call in `verifyWithGPT` as seen at the line
`JSON.parse(response.choices[0].message.content || "\x7b\x7d")`: either the
call or the parse threw (`error`), or an object was parsed, of which the
code reads the optional fields `status` and `issues`.  A missing message
content is parsed as the empty object, i.e. `parsed none none`. -/
inductive VerifyCallOutcome
  | error
  | parsed (status : Option String) (issues : Option (List String))
deriving DecidableEq

/-- Outcome of the stage-3 Claude call in `fixWithClaude`: either anything in
the `try` block threw (API error, timeout, no text block, no JSON found,
parse failure), or a replacement `ChapterContent` was parsed. -/
inductive FixCallOutcome
  | error
  | ok (content : ChapterContent)
deriving DecidableEq

/-- The verdict record returned by `verifyWithGPT`. -/
structure VerifyVerdict where
  status : String
  issues : List String
deriving DecidableEq

/-- JavaScript `x || d` on an optional string field: `undefined` and the
empty string are falsy. -/
def jsOrString (v : Option String) (d : String) : String :=
  match v with
  | some s => if s = "" then d else s
  | none => d

/-- `verifyWithGPT` of server/ai-service.ts, as a function of the call
outcome.  On any caught error it returns a passing verdict; on a parsed
object it returns `result.status || "PASS"` and `result.issues || []`
(an array, even empty, is truthy in JavaScript, so a present `issues`
field is kept as is). -/
def verifyWithGPT (o : VerifyCallOutcome) : VerifyVerdict :=
  match o with
  | .error => ⟨"PASS", []⟩
  | .parsed status issues => ⟨jsOrString status "PASS", issues.getD []⟩

/-- `fixWithClaude` of server/ai-service.ts, as a function of the original
content and the call outcome: the `catch` branch returns the original
content unchanged. -/
def fixWithClaude (content : ChapterContent) (o : FixCallOutcome) : ChapterContent :=
  match o with
  | .error => content
  | .ok c => c

/-- The four external-capability call outcomes available to one pipeline
run, in program order. -/
structure PipelineEnv where
  gen : GenOutcome
  verify1 : VerifyCallOutcome
  fix : FixCallOutcome
  verify2 : VerifyCallOutcome
deriving DecidableEq

/-- Tag of one external-capability invocation. -/
inductive Call
  | generate
  | verify
  | repair
deriving DecidableEq

/-- `processChapterWithAI` of server/ai-service.ts, instrumented with the
trace of external-capability invocations it makes (in order).  The result
is `none` exactly when stage 1 threw (`GenerationFailure`) -- which leaves
an empty trace when `extractBase64` threw before the Gemini request and a
one-call trace when the issued request failed; every other path returns
content.  The recheck verdict is computed and only logged, so its value
does not influence the returned content. -/
def processChapterWithAI (env : PipelineEnv) :
    List Call × Option ChapterContent :=
  match env.gen with
  | .extractError => ([], none)
  | .error => ([Call.generate], none)
  | .ok content =>
    let verification := verifyWithGPT env.verify1
    if verification.status = "PASS" then
      ([Call.generate, Call.verify], some content)
    else
      let fixed := fixWithClaude content env.fix
      let _recheck := verifyWithGPT env.verify2
      ([Call.generate, Call.verify, Call.repair, Call.verify], some fixed)

/-! ## Scoring (server/ai-service.ts) -/

/-- `calculateStars` of server/ai-service.ts with the numeric arithmetic of
the source carried out in the rationals. -/
def calculateStars (score total : ℚ) : Nat :=
  let percentage := score / total * 100
  if percentage ≥ 90 then 5
  else if percentage ≥ 80 then 4
  else if percentage ≥ 70 then 3
  else if percentage ≥ 60 then 2
  else 1

/-- The `forEach` loops of `calculateScores`: an answer at index `i` scores
one point iff a question exists at index `i` and
`questions[i].correct === answer` (exact string equality).  The recursion
walks the answers in order while consuming the question list positionally,
which is the same index pairing. -/
def countCorrect : List String → List Question → Nat
  | [], _ => 0
  | _ :: rest, [] => countCorrect rest []
  | a :: rest, q :: qs =>
    (if q.correct.toStr = a then 1 else 0) + countCorrect rest qs

/-- The record returned by `calculateScores`. -/
structure ScoreResult where
  practiceScore : Nat
  testScore : Nat
  totalScore : Nat
  stars : Nat
deriving DecidableEq

/-- `calculateScores` of server/ai-service.ts. -/
def calculateScores (practiceAnswers testAnswers : List String)
    (practiceQuestions testQuestions : List Question) : ScoreResult :=
  let practiceScore := countCorrect practiceAnswers practiceQuestions
  let testScore := countCorrect testAnswers testQuestions
  let totalScore := practiceScore + testScore
  let stars := calculateStars totalScore 15
  ⟨practiceScore, testScore, totalScore, stars⟩

/-! ## Authorization model and route handlers (server/routes.ts)

The `server/auth.ts` middleware is not among the provided sources (only its
documentation and its call sites are), so the session-to-request-context
mapping is modelled from the specification; the handler bodies themselves
are embedded from server/routes.ts. -/

/-- HTTP-level outcome of a handler: the JSON payload on success, or the
distinguished error statuses used by the embedded routes (400, 401, 403,
404). -/
inductive HResp (α : Type)
  | ok (a : α)
  | badRequest
  | unauthenticated
  | forbidden
  | notFound
deriving DecidableEq

/-- Modelled from the spec: the session model of section 3 -- a caller holds
either a ChildSession (childId plus the parentId it was derived from) or a
ParentSession (parentId).  The concrete JWT cookies live in the missing
server/auth.ts. -/
inductive Caller
  | child (childId parentId : String)
  | parent (parentId : String)
deriving DecidableEq

/-- The request context the auth middleware leaves for a handler:
`req.authenticatedChildId` and `req.authenticatedParentId`. -/
structure AuthCtx where
  childId : Option String
  parentId : Option String
deriving DecidableEq

/-- Modelled from the spec: the missing `requireChildAccess` middleware of
server/auth.ts populates the request context from the presented credential.
Per the dual-mode gate of spec section 4.2, a ChildSession makes the
session childId authoritative and a ParentSession (no ChildSession) leaves
only the parentId, under which handlers perform their own ownership
lookups. -/
def authOf : Caller → AuthCtx
  | .child c _ => ⟨some c, none⟩
  | .parent p => ⟨none, some p⟩

/-- The guard pattern `if (x && resource.field !== x)` of the route
handlers: a mismatch only when the authenticated id is present and differs
from the resource field. -/
def mismatch (claimed : Option String) (actual : String) : Bool :=
  match claimed with
  | some v => actual ≠ v
  | none => false

/-- The `GET /api/chapters/:id` handler of server/routes.ts, as a function
of the request context and the `storage.getChapterById` lookup result:
404 when absent, then the childId guard, then the parentId guard, then the
chapter itself. -/
def getChapterHandler (auth : AuthCtx) (lookup : Option Chapter) : HResp Chapter :=
  match lookup with
  | none => .notFound
  | some chapter =>
    if mismatch auth.childId chapter.childId then .forbidden
    else if mismatch auth.parentId chapter.parentId then .forbidden
    else .ok chapter

/-- The `GET /api/results/:id` handler of server/routes.ts: 404 when the
result is absent, the childId guard, and -- for a parent context with no
child context -- an ownership check through `storage.getChapterById` on the
result's chapter. -/
def getResultHandler (auth : AuthCtx) (lookup : Option ResultRow)
    (getChapterById : String → Option Chapter) : HResp ResultRow :=
  match lookup with
  | none => .notFound
  | some result =>
    if mismatch auth.childId result.childId then .forbidden
    else if auth.parentId.isSome ∧ auth.childId.isNone then
      match getChapterById result.chapterId with
      | none => .forbidden
      | some chapter =>
        if chapter.parentId ≠ auth.parentId.getD "" then .forbidden
        else .ok result
    else .ok result

/-- The `POST /api/child/login` handler of server/routes.ts.  The
`verifyParentToken` function lives in the missing server/auth.ts and is
passed here as a parameter mapping a token to the parentId it certifies
(`none` for an invalid or expired token, which the handler turns into 401).
The second component of the result records the `setChildCookie` effect:
the (childId, parentId) pair a minted child token would carry, or `none`
when no cookie is set. -/
def childLoginHandler (bodyChildId : Option String)
    (parentCookie : Option String)
    (verifyParentToken : String → Option String)
    (getChildById : String → Option Child) :
    HResp Child × Option (String × String) :=
  match bodyChildId with
  | none => (.badRequest, none)
  | some childId =>
    if childId = "" then (.badRequest, none)
    else
      match parentCookie with
      | none => (.unauthenticated, none)
      | some token =>
        match verifyParentToken token with
        | none => (.unauthenticated, none)
        | some parentId =>
          match getChildById childId with
          | none => (.forbidden, none)
          | some child =>
            if child.parentId ≠ parentId then (.forbidden, none)
            else (.ok child, some (childId, parentId))

/-- Decision of the dual-mode gate on routes whose URL names a child. -/
inductive Gate
  | unauthenticated
  | forbidden
  | allowed (ctx : AuthCtx)
deriving DecidableEq

/-- Modelled from the spec: the missing `requireChildAccess` middleware on
routes carrying a childId parameter.  Per spec section 4.2: with a
ChildSession the claimed childId must equal the session childId or the
request is rejected with Forbidden; with only a ParentSession the target
child is looked up and must belong to that parent (the documented
"parent session with ownership check" fallback); with no credential the
request is Unauthenticated. -/
def childAccessGate (caller : Option Caller) (paramChildId : String)
    (getChildById : String → Option Child) : Gate :=
  match caller with
  | none => .unauthenticated
  | some (.child c _) =>
    if paramChildId ≠ c then .forbidden else .allowed ⟨some c, none⟩
  | some (.parent p) =>
    match getChildById paramChildId with
    | none => .forbidden
    | some child =>
      if child.parentId ≠ p then .forbidden else .allowed ⟨none, some p⟩

/-- The `GET /api/children/:id` route: the gate, then the handler body of
server/routes.ts, which reads `req.authenticatedChildId || req.params.id`
and returns the child row. -/
def getChildRoute (caller : Option Caller) (paramId : String)
    (getChildById : String → Option Child) : HResp Child :=
  match childAccessGate caller paramId getChildById with
  | .unauthenticated => .unauthenticated
  | .forbidden => .forbidden
  | .allowed ctx =>
    let childId := ctx.childId.getD paramId
    match getChildById childId with
    | none => .notFound
    | some child => .ok child

/-- The `GET /api/children/:childId/chapters` route: the gate, then the
handler body returning `storage.getChaptersByChild` for the effective
childId. -/
def getChildChaptersRoute (caller : Option Caller) (paramChildId : String)
    (getChildById : String → Option Child)
    (getChaptersByChild : String → List Chapter) : HResp (List Chapter) :=
  match childAccessGate caller paramChildId getChildById with
  | .unauthenticated => .unauthenticated
  | .forbidden => .forbidden
  | .allowed ctx =>
    .ok (getChaptersByChild (ctx.childId.getD paramChildId))

/-- The `GET /api/children/:childId/results` route: the gate, then the
handler body returning `storage.getResultsByChild` for the effective
childId. -/
def getChildResultsRoute (caller : Option Caller) (paramChildId : String)
    (getChildById : String → Option Child)
    (getResultsByChild : String → List ResultRow) : HResp (List ResultRow) :=
  match childAccessGate caller paramChildId getChildById with
  | .unauthenticated => .unauthenticated
  | .forbidden => .forbidden
  | .allowed ctx =>
    .ok (getResultsByChild (ctx.childId.getD paramChildId))

/-! ## Chapter persistence during one pipeline run (server/routes.ts
`processChapterInBackground` with server/storage.ts) -/

/-- One write to the chapter row.  `create` is `storage.createChapter`
(the schema defaults give status "processing" and a NULL content);
`setContent` is `storage.updateChapterContent` (sets the content and the
status "ready" in one update); `setStatus` is `storage.updateChapterStatus`
(touches only the status). -/
inductive ChapterWrite
  | create (status : String) (content : Option ChapterContent)
  | setContent (content : ChapterContent)
  | setStatus (status : String)
deriving DecidableEq

/-- The persisted state of the chapter row that the run mutates. -/
structure ChapterRow where
  status : String
  content : Option ChapterContent
deriving DecidableEq

/-- Effect of one write on the row. -/
def applyWrite (row : ChapterRow) : ChapterWrite → ChapterRow
  | .create status content => ⟨status, content⟩
  | .setContent content => ⟨"ready", some content⟩
  | .setStatus status => ⟨status, row.content⟩

/-- Replay a write sequence from the empty pre-state (the first write of
every sequence considered here is a `create`, which fixes every field). -/
def replayWrites (ws : List ChapterWrite) : ChapterRow :=
  ws.foldl applyWrite ⟨"", none⟩

/-- The chapter-row writes performed by one chapter-creation request:
`storage.createChapter` in the `POST /api/chapters` handler, then -- inside
`processChapterInBackground` -- either `storage.updateChapterContent` on
pipeline success or `storage.updateChapterStatus "error"` when
`processChapterWithAI` threw. -/
def chapterRunWrites (env : PipelineEnv) : List ChapterWrite :=
  ChapterWrite.create "processing" none ::
    (match (processChapterWithAI env).2 with
     | some content => [ChapterWrite.setContent content]
     | none => [ChapterWrite.setStatus "error"])

/-! ## Specification-side predicates

These state the claims' ownership and scoring predicates in the spec's own
vocabulary, to be compared against the embedded handlers above. -/

/-- The claim's scoring predicate: the answer at index `i` is correct iff a
question exists at index `i` and the answer string equals, exactly and
case-sensitively, that question's correct letter. -/
def answerIsCorrect (questions : List Question) (answers : List String)
    (i : Nat) : Prop :=
  ∃ q, questions[i]? = some q ∧ answers[i]? = some q.correct.toStr

instance answerIsCorrectDecidable (questions : List Question)
    (answers : List String) (i : Nat) :
    Decidable (answerIsCorrect questions answers i) :=
  match h : questions[i]? with
  | some q =>
    decidable_of_iff (answers[i]? = some q.correct.toStr)
      (by simp [answerIsCorrect, h])
  | none => isFalse (by simp [answerIsCorrect, h])

/-- The spec's Ownership Edge predicate for a chapter: a child caller owns
it iff its childId matches, a parent caller iff its parentId matches. -/
def chapterOwner (caller : Caller) (chapter : Chapter) : Prop :=
  match caller with
  | .child c _ => chapter.childId = c
  | .parent p => chapter.parentId = p

/-- The spec's Ownership Edge predicate for a result: a child caller owns
it iff its childId matches; a parent caller iff the result's chapter exists
and carries the caller's parentId. -/
def resultOwner (caller : Caller) (result : ResultRow)
    (getChapterById : String → Option Chapter) : Prop :=
  match caller with
  | .child c _ => result.childId = c
  | .parent p =>
    ∃ chapter, getChapterById result.chapterId = some chapter
      ∧ chapter.parentId = p

/-! ## Theorems -/

/-- C3, counterexample: a parsed verification response lacking a status
field but carrying a nonempty issues list does not yield the verdict with
empty issues claimed -- the issues are passed through. -/
theorem verify_missing_status_keeps_issues :
    verifyWithGPT (VerifyCallOutcome.parsed none (some ["ambiguous question"]))
      ≠ ⟨"PASS", []⟩ := by
  decide

/-- C3 (amended): if the stage-2 capability errors, times out, or its
output cannot be parsed, `verifyWithGPT` returns the verdict with status
PASS and empty issues; if the output parses to an object lacking a status
field, the status still defaults to PASS (with the issues field, when
present, passed through, and empty when absent), so no error propagates
and the pipeline continues with the current content in every case. -/
theorem verifyWithGPT_fail_open (issues : Option (List String)) :
    verifyWithGPT VerifyCallOutcome.error = ⟨"PASS", []⟩
    ∧ verifyWithGPT (VerifyCallOutcome.parsed none issues)
        = ⟨"PASS", issues.getD []⟩
    ∧ (verifyWithGPT (VerifyCallOutcome.parsed none issues)).status = "PASS"
    ∧ verifyWithGPT (VerifyCallOutcome.parsed none none) = ⟨"PASS", []⟩ :=
  ⟨rfl, rfl, rfl, rfl⟩

/-- C4: when the stage-3 repair call errors, produces unparseable output or
times out, `fixWithClaude` returns its input unchanged; consequently, once
stage 1 has succeeded, the pipeline result is the stage-1 candidate when
repair fails, and in every case some content, never nothing. -/
theorem fixWithClaude_keeps_candidate (c : ChapterContent) (env : PipelineEnv) :
    fixWithClaude c FixCallOutcome.error = c
    ∧ (env.gen = GenOutcome.ok c → env.fix = FixCallOutcome.error →
        (processChapterWithAI env).2 = some c)
    ∧ (env.gen = GenOutcome.ok c → (processChapterWithAI env).2 ≠ none) := by
  refine ⟨rfl, ?_, ?_⟩
  · intro hg hf
    simp only [processChapterWithAI, hg, hf]
    by_cases h : (verifyWithGPT env.verify1).status = "PASS" <;>
      simp [h, fixWithClaude]
  · intro hg
    simp only [processChapterWithAI, hg]
    by_cases h : (verifyWithGPT env.verify1).status = "PASS" <;> simp [h]

/-- Witness for C4: a concrete run where generation succeeds, verification
fails and repair errors returns exactly the stage-1 candidate. -/
theorem fixWithClaude_keeps_candidate_witness :
    (processChapterWithAI
        ⟨GenOutcome.ok ⟨"math", 1, "t", [], [], []⟩,
         VerifyCallOutcome.parsed (some "FAIL") (some ["issue"]),
         FixCallOutcome.error, VerifyCallOutcome.error⟩).2
      = some ⟨"math", 1, "t", [], [], []⟩ :=
  (fixWithClaude_keeps_candidate ⟨"math", 1, "t", [], [], []⟩ _).2.1 rfl rfl

/-- C5: when stage 1 succeeds and the first verification verdict is not
PASS, the run invokes repair exactly once and verification exactly twice in
total, and returns the repaired content whatever the re-verification
outcome is (the statement holds for every `env.verify2`, including a FAIL
verdict). -/
theorem pipeline_single_repair (env : PipelineEnv) (c : ChapterContent)
    (hg : env.gen = GenOutcome.ok c)
    (hv : (verifyWithGPT env.verify1).status ≠ "PASS") :
    (processChapterWithAI env).1.count Call.repair = 1
    ∧ (processChapterWithAI env).1.count Call.verify = 2
    ∧ (processChapterWithAI env).2 = some (fixWithClaude c env.fix) := by
  have htrace : (processChapterWithAI env).1
      = [Call.generate, Call.verify, Call.repair, Call.verify] := by
    simp only [processChapterWithAI, hg]
    simp [hv]
  have hres : (processChapterWithAI env).2 = some (fixWithClaude c env.fix) := by
    simp only [processChapterWithAI, hg]
    simp [hv]
  refine ⟨?_, ?_, hres⟩ <;> rw [htrace] <;> decide

/-- Witness for C5: a concrete run whose first verification fails and whose
re-verification also fails still counts one repair invocation. -/
theorem pipeline_single_repair_witness :
    (processChapterWithAI
        ⟨GenOutcome.ok ⟨"math", 1, "t", [], [], []⟩,
         VerifyCallOutcome.parsed (some "FAIL") (some ["issue"]),
         FixCallOutcome.ok ⟨"math", 1, "t2", [], [], []⟩,
         VerifyCallOutcome.parsed (some "FAIL") (some ["still bad"])⟩).1.count
      Call.repair = 1 :=
  (pipeline_single_repair _ ⟨"math", 1, "t", [], [], []⟩ rfl (by decide)).1

/-- C6, counterexample: a run whose one photo is not a data URL makes
`extractBase64` throw before the Gemini request is issued, so stage 1
fails with zero external-capability invocations -- refuting both the
claimed "never 0" and "1 call when generation fails". -/
theorem pipeline_call_count_cex :
    (processChapterWithAI
        ⟨generateWithGemini ["notaurl"] (GenApiOutcome.ok ⟨"math", 1, "t", [], [], []⟩),
         VerifyCallOutcome.error, FixCallOutcome.error,
         VerifyCallOutcome.error⟩).1.length = 0 := by
  decide

/-- C6 (amended): one pipeline run makes at most 4 external-capability
invocations, a count in 0, 1, 2 or 4: 0 when `extractBase64` throws on a
malformed photo data URL before any call is issued, 1 when the issued
generation call fails, 2 when the first verification passes, and 4 when
it does not. -/
theorem pipeline_call_bounds (photos : List String) (api : GenApiOutcome)
    (v1 : VerifyCallOutcome) (fo : FixCallOutcome) (v2 : VerifyCallOutcome) :
    ((processChapterWithAI ⟨generateWithGemini photos api, v1, fo, v2⟩).1.length = 0
      ∨ (processChapterWithAI ⟨generateWithGemini photos api, v1, fo, v2⟩).1.length = 1
      ∨ (processChapterWithAI ⟨generateWithGemini photos api, v1, fo, v2⟩).1.length = 2
      ∨ (processChapterWithAI ⟨generateWithGemini photos api, v1, fo, v2⟩).1.length = 4)
    ∧ (processChapterWithAI ⟨generateWithGemini photos api, v1, fo, v2⟩).1.length ≤ 4
    ∧ (extractAllPhotos photos = none →
        (processChapterWithAI ⟨generateWithGemini photos api, v1, fo, v2⟩).1.length = 0)
    ∧ (∀ parts, extractAllPhotos photos = some parts → api = GenApiOutcome.error →
        (processChapterWithAI ⟨generateWithGemini photos api, v1, fo, v2⟩).1.length = 1)
    ∧ (∀ parts c, extractAllPhotos photos = some parts → api = GenApiOutcome.ok c →
        ((verifyWithGPT v1).status = "PASS" →
          (processChapterWithAI ⟨generateWithGemini photos api, v1, fo, v2⟩).1.length = 2)
        ∧ ((verifyWithGPT v1).status ≠ "PASS" →
          (processChapterWithAI ⟨generateWithGemini photos api, v1, fo, v2⟩).1.length = 4)) := by
  cases hx : extractAllPhotos photos with
  | none =>
    have hg : generateWithGemini photos api = GenOutcome.extractError := by
      simp [generateWithGemini, hx]
    simp [processChapterWithAI, hg, hx]
  | some parts =>
    cases api with
    | error =>
      have hg : generateWithGemini photos GenApiOutcome.error = GenOutcome.error := by
        simp [generateWithGemini, hx]
      simp [processChapterWithAI, hg, hx]
    | ok c =>
      have hg : generateWithGemini photos (GenApiOutcome.ok c) = GenOutcome.ok c := by
        simp [generateWithGemini, hx]
      by_cases hv : (verifyWithGPT v1).status = "PASS" <;>
        simp [processChapterWithAI, hg, hx, hv]

/-- Witness for the amended C6: a run with one well-formed data-URL photo
whose issued generation request fails makes exactly one external call. -/
theorem pipeline_call_bounds_witness :
    (processChapterWithAI
        ⟨generateWithGemini ["data:image/png;base64,AAAA"] GenApiOutcome.error,
         VerifyCallOutcome.error, FixCallOutcome.error,
         VerifyCallOutcome.error⟩).1.length = 1 :=
  (pipeline_call_bounds ["data:image/png;base64,AAAA"] GenApiOutcome.error
      VerifyCallOutcome.error FixCallOutcome.error VerifyCallOutcome.error).2.2.2.1
    [("image/png", "AAAA")] (by decide) rfl

/-- Exhausted question lists contribute no points: the index lookup misses
for every remaining answer. -/
theorem countCorrect_nil_questions (answers : List String) :
    countCorrect answers [] = 0 := by
  induction answers with
  | nil => rfl
  | cons a rest ih => simpa [countCorrect] using ih

/-- The loop of `calculateScores` computes exactly the per-index predicate
of the claim: one point per index at which a question exists and the answer
equals its correct letter. -/
theorem countCorrect_eq_countP (answers : List String) (questions : List Question) :
    countCorrect answers questions =
      (List.range answers.length).countP
        fun i => decide (answerIsCorrect questions answers i) := by
  induction answers generalizing questions with
  | nil => simp [countCorrect]
  | cons a rest ih =>
    have hrange : List.range (a :: rest).length
        = 0 :: (List.range rest.length).map Nat.succ := by
      simp [List.range_succ_eq_map]
    cases questions with
    | nil =>
      rw [countCorrect_nil_questions]
      symm
      rw [List.countP_eq_zero]
      intro i _
      simp [answerIsCorrect]
    | cons q qs =>
      rw [show countCorrect (a :: rest) (q :: qs)
            = (if q.correct.toStr = a then 1 else 0) + countCorrect rest qs
          from rfl]
      rw [ih qs, hrange, List.countP_cons, List.countP_map]
      have hshift :
          ((List.range rest.length).countP
            ((fun i => decide (answerIsCorrect (q :: qs) (a :: rest) i)) ∘ Nat.succ))
          = (List.range rest.length).countP
              fun i => decide (answerIsCorrect qs rest i) := by
        apply List.countP_congr
        intro i _
        simp only [Function.comp_apply, decide_eq_decide]
        simp [answerIsCorrect]
      rw [hshift]
      by_cases hqa : q.correct.toStr = a
      · have h0 : decide (answerIsCorrect (q :: qs) (a :: rest) 0) = true := by
          simp [answerIsCorrect, hqa]
        simp [h0, hqa, Nat.add_comm]
      · have h0 : decide (answerIsCorrect (q :: qs) (a :: rest) 0) = false := by
          simp only [decide_eq_false_iff_not]
          simp [answerIsCorrect]
          intro h
          exact hqa h.symm
        simp [h0, hqa]

/-- C7: for answer and question lists of arbitrary lengths,
`calculateScores` (a total function, so no failure on length mismatch)
counts an answer at index i as correct exactly when a question exists at
that index and the answer equals its correct letter, case-sensitively;
the total is the sum of the two counts, and the stars are computed from
the total over the fixed denominator 15. -/
theorem calculateScores_spec (pa ta : List String) (pq tq : List Question) :
    (calculateScores pa ta pq tq).practiceScore
        = (List.range pa.length).countP (fun i => decide (answerIsCorrect pq pa i))
    ∧ (calculateScores pa ta pq tq).testScore
        = (List.range ta.length).countP (fun i => decide (answerIsCorrect tq ta i))
    ∧ (calculateScores pa ta pq tq).totalScore
        = (calculateScores pa ta pq tq).practiceScore
            + (calculateScores pa ta pq tq).testScore
    ∧ (calculateScores pa ta pq tq).stars
        = calculateStars ((calculateScores pa ta pq tq).totalScore) 15 :=
  ⟨countCorrect_eq_countP pa pq, countCorrect_eq_countP ta tq, rfl, rfl⟩

/-- C8: the star rating is the inclusive 5-tier step function of the score
ratio -- at least 90 percent gives 5 stars (0.90 exactly included), at
least 80 gives 4 (0.89999 gives 4), at least 70 gives 3, at least 60 gives
2, anything lower 1 -- and `calculateScores` feeds `calculateStars` the
fixed total 15, under which 12 of 15 gives 4 stars. -/
theorem calculateStars_boundaries (score total : ℚ) :
    (9/10 ≤ score / total → calculateStars score total = 5)
    ∧ (8/10 ≤ score / total → score / total < 9/10 →
        calculateStars score total = 4)
    ∧ (7/10 ≤ score / total → score / total < 8/10 →
        calculateStars score total = 3)
    ∧ (6/10 ≤ score / total → score / total < 7/10 →
        calculateStars score total = 2)
    ∧ (score / total < 6/10 → calculateStars score total = 1)
    ∧ calculateStars (90/100) 1 = 5
    ∧ calculateStars (89999/100000) 1 = 4
    ∧ calculateStars 12 15 = 4
    ∧ (∀ pa ta pq tq, (calculateScores pa ta pq tq).stars
        = calculateStars ((calculateScores pa ta pq tq).totalScore) 15) := by
  have e : calculateStars score total
      = (if score / total * 100 ≥ 90 then 5
        else if score / total * 100 ≥ 80 then 4
        else if score / total * 100 ≥ 70 then 3
        else if score / total * 100 ≥ 60 then 2
        else 1) := rfl
  refine ⟨?_, ?_, ?_, ?_, ?_, ?_, ?_, ?_, fun _ _ _ _ => rfl⟩
  · intro h
    rw [e]
    split_ifs with h1 h2 h3 h4 <;> first | rfl | linarith
  · intro ha hb
    rw [e]
    split_ifs with h1 h2 h3 h4 <;> first | rfl | linarith
  · intro ha hb
    rw [e]
    split_ifs with h1 h2 h3 h4 <;> first | rfl | linarith
  · intro ha hb
    rw [e]
    split_ifs with h1 h2 h3 h4 <;> first | rfl | linarith
  · intro h
    rw [e]
    split_ifs with h1 h2 h3 h4 <;> first | rfl | linarith
  · norm_num [calculateStars]
  · norm_num [calculateStars]
  · norm_num [calculateStars]

/-- Witness for C8: the scoring example 12 of 15 lands in the 4-star tier
through the boundary theorem. -/
theorem calculateStars_boundaries_witness :
    calculateStars 12 15 = 4 :=
  (calculateStars_boundaries 12 15).2.1 (by norm_num) (by norm_num)

/-- C10: one chapter-creation request performs exactly two writes to the
chapter row -- the creating insert with status processing and no content,
and one completing write that either populates the full content with
status ready or, on generation failure, sets status error leaving the
content absent; a read between the two writes observes status processing
with absent content. -/
theorem chapter_row_write_discipline (env : PipelineEnv) :
    (chapterRunWrites env).length = 2
    ∧ (chapterRunWrites env).head?
        = some (ChapterWrite.create "processing" none)
    ∧ replayWrites ((chapterRunWrites env).take 1) = ⟨"processing", none⟩
    ∧ ((∃ c, (processChapterWithAI env).2 = some c
          ∧ replayWrites (chapterRunWrites env) = ⟨"ready", some c⟩)
        ∨ ((processChapterWithAI env).2 = none
            ∧ replayWrites (chapterRunWrites env) = ⟨"error", none⟩)) := by
  cases h : (processChapterWithAI env).2 with
  | none =>
    refine ⟨?_, ?_, ?_, Or.inr ⟨rfl, ?_⟩⟩ <;>
      simp [chapterRunWrites, h, replayWrites, applyWrite]
  | some c =>
    refine ⟨?_, ?_, ?_, Or.inl ⟨c, rfl, ?_⟩⟩ <;>
      simp [chapterRunWrites, h, replayWrites, applyWrite]

/-- C1: for both read handlers, with a resource present, the payload is
returned exactly when the spec's owner predicate holds for the caller, and
an ownership mismatch yields Forbidden -- never NotFound, which is reserved
for an absent resource. -/
theorem read_handlers_enforce_ownership (caller : Caller) (chapter : Chapter)
    (result : ResultRow) (getChapterById : String → Option Chapter) :
    (getChapterHandler (authOf caller) (some chapter) = HResp.ok chapter
      ↔ chapterOwner caller chapter)
    ∧ (¬ chapterOwner caller chapter →
        getChapterHandler (authOf caller) (some chapter) = HResp.forbidden)
    ∧ (getResultHandler (authOf caller) (some result) getChapterById
          = HResp.ok result
      ↔ resultOwner caller result getChapterById)
    ∧ (¬ resultOwner caller result getChapterById →
        getResultHandler (authOf caller) (some result) getChapterById
          = HResp.forbidden) := by
  cases caller with
  | child c p =>
    refine ⟨?_, ?_, ?_, ?_⟩
    · by_cases hc : chapter.childId = c <;>
        simp [getChapterHandler, authOf, mismatch, chapterOwner, hc]
    · by_cases hc : chapter.childId = c <;>
        simp [getChapterHandler, authOf, mismatch, chapterOwner, hc]
    · by_cases hr : result.childId = c <;>
        simp [getResultHandler, authOf, mismatch, resultOwner, hr]
    · by_cases hr : result.childId = c <;>
        simp [getResultHandler, authOf, mismatch, resultOwner, hr]
  | parent p =>
    refine ⟨?_, ?_, ?_, ?_⟩
    · by_cases hp : chapter.parentId = p <;>
        simp [getChapterHandler, authOf, mismatch, chapterOwner, hp]
    · by_cases hp : chapter.parentId = p <;>
        simp [getChapterHandler, authOf, mismatch, chapterOwner, hp]
    · cases hcb : getChapterById result.chapterId with
      | none => simp [getResultHandler, authOf, mismatch, resultOwner, hcb]
      | some ch =>
        by_cases hp : ch.parentId = p <;>
          simp [getResultHandler, authOf, mismatch, resultOwner, hcb, hp]
    · cases hcb : getChapterById result.chapterId with
      | none => simp [getResultHandler, authOf, mismatch, resultOwner, hcb]
      | some ch =>
        by_cases hp : ch.parentId = p <;>
          simp [getResultHandler, authOf, mismatch, resultOwner, hcb, hp]

/-- Witness for C1: a parent reading another parent's chapter is met with
Forbidden, not NotFound. -/
theorem read_handlers_enforce_ownership_witness :
    getChapterHandler (authOf (Caller.parent "p1"))
      (some ⟨"ch1", "c1", "p2"⟩) = HResp.forbidden :=
  (read_handlers_enforce_ownership (Caller.parent "p1") ⟨"ch1", "c1", "p2"⟩
      ⟨"r1", "ch1", "c1"⟩ (fun _ => none)).2.1
    (by simp only [chapterOwner]; decide)

/-- C2: the child-login handler mints a child token exactly when a present
and verifiable parent session certifies a parentId equal to the looked-up
child's parentId; whenever the chain is valid up to the child lookup but
the child is absent or belongs to another parent, the response is
Forbidden and no token is set. -/
theorem childLogin_mints_only_for_owner
    (bodyChildId parentCookie : Option String)
    (verifyParentToken : String → Option String)
    (getChildById : String → Option Child) :
    ((childLoginHandler bodyChildId parentCookie verifyParentToken
        getChildById).2.isSome
      ↔ ∃ cid tok pid child, bodyChildId = some cid ∧ cid ≠ ""
          ∧ parentCookie = some tok ∧ verifyParentToken tok = some pid
          ∧ getChildById cid = some child ∧ child.parentId = pid)
    ∧ (∀ cid tok pid, bodyChildId = some cid → cid ≠ "" →
        parentCookie = some tok → verifyParentToken tok = some pid →
        (getChildById cid = none
          ∨ ∃ child, getChildById cid = some child ∧ child.parentId ≠ pid) →
        childLoginHandler bodyChildId parentCookie verifyParentToken
            getChildById
          = (HResp.forbidden, none)) := by
  constructor
  · cases bodyChildId with
    | none => simp [childLoginHandler]
    | some cid =>
      by_cases hcid : cid = ""
      · simp [childLoginHandler, hcid]
      · cases parentCookie with
        | none => simp [childLoginHandler, hcid]
        | some tok =>
          cases hv : verifyParentToken tok with
          | none =>
            have hred : childLoginHandler (some cid) (some tok)
                verifyParentToken getChildById = (HResp.unauthenticated, none) := by
              simp [childLoginHandler, hcid, hv]
            rw [hred]
            simp only [Option.isSome_none, Bool.false_eq_true, false_iff]
            rintro ⟨cid', tok', pid', child', h1, h2, h3, h4, h5, h6⟩
            obtain rfl : cid' = cid := (Option.some.inj h1).symm
            obtain rfl : tok' = tok := (Option.some.inj h3).symm
            rw [hv] at h4
            exact Option.noConfusion h4
          | some pid =>
            cases hch : getChildById cid with
            | none =>
              have hred : childLoginHandler (some cid) (some tok)
                  verifyParentToken getChildById = (HResp.forbidden, none) := by
                simp [childLoginHandler, hcid, hv, hch]
              rw [hred]
              simp only [Option.isSome_none, Bool.false_eq_true, false_iff]
              rintro ⟨cid', tok', pid', child', h1, h2, h3, h4, h5, h6⟩
              obtain rfl : cid' = cid := (Option.some.inj h1).symm
              rw [hch] at h5
              exact Option.noConfusion h5
            | some child =>
              by_cases hp : child.parentId = pid
              · have hred : childLoginHandler (some cid) (some tok)
                    verifyParentToken getChildById
                    = (HResp.ok child, some (cid, pid)) := by
                  simp [childLoginHandler, hcid, hv, hch, hp]
                rw [hred]
                simp only [Option.isSome_some, true_iff]
                exact ⟨cid, tok, pid, child, rfl, hcid, rfl, hv, hch, hp⟩
              · have hred : childLoginHandler (some cid) (some tok)
                    verifyParentToken getChildById = (HResp.forbidden, none) := by
                  simp [childLoginHandler, hcid, hv, hch, hp]
                rw [hred]
                simp only [Option.isSome_none, Bool.false_eq_true, false_iff]
                rintro ⟨cid', tok', pid', child', h1, h2, h3, h4, h5, h6⟩
                obtain rfl : cid' = cid := (Option.some.inj h1).symm
                obtain rfl : tok' = tok := (Option.some.inj h3).symm
                rw [hv] at h4
                obtain rfl : pid' = pid := (Option.some.inj h4).symm
                rw [hch] at h5
                obtain rfl : child' = child := (Option.some.inj h5).symm
                exact hp h6
  · intro cid tok pid hb hcid hpc hv hbad
    subst hb
    subst hpc
    cases hbad with
    | inl hnone => simp [childLoginHandler, hcid, hv, hnone]
    | inr hex =>
      obtain ⟨child, hch, hp⟩ := hex
      simp [childLoginHandler, hcid, hv, hch, hp]

/-- Witness for C2: a valid parent session requesting login for a child of
a different parent is refused with Forbidden and no token is minted. -/
theorem childLogin_mints_only_for_owner_witness :
    childLoginHandler (some "c1") (some "tok") (fun _ => some "p1")
        (fun _ => some ⟨"c1", "kid", "p2"⟩)
      = (HResp.forbidden, none) :=
  (childLogin_mints_only_for_owner (some "c1") (some "tok")
      (fun _ => some "p1") (fun _ => some ⟨"c1", "kid", "p2"⟩)).2
    "c1" "tok" "p1" rfl (by decide) rfl rfl
    (Or.inr ⟨⟨"c1", "kid", "p2"⟩, rfl, by decide⟩)

/-- C9: on the three child-scoped dual-mode routes invoked with only a
parent session, data is returned only after the independent ownership
lookup has shown the target child to belong to that parent, and an absent
or foreign child makes all three routes answer Forbidden. -/
theorem parent_child_routes_ownership (p param : String)
    (getChildById : String → Option Child)
    (getChaptersByChild : String → List Chapter)
    (getResultsByChild : String → List ResultRow) :
    (∀ child, getChildRoute (some (Caller.parent p)) param getChildById
          = HResp.ok child →
        getChildById param = some child ∧ child.parentId = p)
    ∧ (∀ chapters, getChildChaptersRoute (some (Caller.parent p)) param
          getChildById getChaptersByChild = HResp.ok chapters →
        ∃ child, getChildById param = some child ∧ child.parentId = p
          ∧ chapters = getChaptersByChild param)
    ∧ (∀ results, getChildResultsRoute (some (Caller.parent p)) param
          getChildById getResultsByChild = HResp.ok results →
        ∃ child, getChildById param = some child ∧ child.parentId = p
          ∧ results = getResultsByChild param)
    ∧ ((getChildById param = none
          ∨ ∃ child, getChildById param = some child ∧ child.parentId ≠ p) →
        getChildRoute (some (Caller.parent p)) param getChildById
            = HResp.forbidden
        ∧ getChildChaptersRoute (some (Caller.parent p)) param getChildById
            getChaptersByChild = HResp.forbidden
        ∧ getChildResultsRoute (some (Caller.parent p)) param getChildById
            getResultsByChild = HResp.forbidden) := by
  cases hch : getChildById param with
  | none =>
    refine ⟨?_, ?_, ?_, ?_⟩ <;>
      simp [getChildRoute, getChildChaptersRoute, getChildResultsRoute,
        childAccessGate, hch]
  | some child =>
    by_cases hp : child.parentId = p
    · refine ⟨?_, ?_, ?_, ?_⟩
      · intro ch hok
        simp [getChildRoute, childAccessGate, hch, hp] at hok
        subst hok
        exact ⟨rfl, hp⟩
      · intro chapters hok
        simp [getChildChaptersRoute, childAccessGate, hch, hp] at hok
        exact ⟨child, rfl, hp, hok.symm⟩
      · intro results hok
        simp [getChildResultsRoute, childAccessGate, hch, hp] at hok
        exact ⟨child, rfl, hp, hok.symm⟩
      · rintro (hnone | ⟨child', hch', hp'⟩)
        · exact Option.noConfusion hnone
        · obtain rfl : child' = child := (Option.some.inj hch').symm
          exact absurd hp hp'
    · refine ⟨?_, ?_, ?_, ?_⟩
      · intro ch hok
        simp [getChildRoute, childAccessGate, hch, hp] at hok
      · intro chapters hok
        simp [getChildChaptersRoute, childAccessGate, hch, hp] at hok
      · intro results hok
        simp [getChildResultsRoute, childAccessGate, hch, hp] at hok
      · intro _
        refine ⟨?_, ?_, ?_⟩ <;>
          simp [getChildRoute, getChildChaptersRoute, getChildResultsRoute,
            childAccessGate, hch, hp]

/-- Witness for C9: a parent session targeting a child owned by a different
parent is answered with Forbidden on the child-detail route. -/
theorem parent_child_routes_ownership_witness :
    getChildRoute (some (Caller.parent "p1")) "c1"
        (fun _ => some ⟨"c1", "kid", "p2"⟩)
      = HResp.forbidden :=
  ((parent_child_routes_ownership "p1" "c1"
      (fun _ => some ⟨"c1", "kid", "p2"⟩) (fun _ => []) (fun _ => [])).2.2.2
    (Or.inr ⟨⟨"c1", "kid", "p2"⟩, rfl, by decide⟩)).1

end LearnSnap
